import Mathlib

/-!
Verification development for the mesh decimation service
(`src/python_service/mesh_processor.py`).

The repository consists of a FastAPI HTTP handler (`decimate_mesh`) that
validates an upload, loads it with open3d, calls open3d's
`simplify_quadric_decimation`, and returns the decimated mesh with
statistics headers.  The handler itself is embedded faithfully below,
with the three open3d calls abstracted as an environment of
exception-throwing functions (`Env`), since open3d is an external
library whose code is not part of the repository.

The decimation core (quadric edge-collapse driver, candidate queue,
collapse executor) is not in the repository either; it is modelled from
the specification where claims require it (second half of this file).
-/

set_option maxHeartbeats 2000000

set_option maxRecDepth 100000

namespace MeshService

attribute [local semireducible] Rat.mul Rat.inv Rat.add Rat.sub

/-- String constants appearing verbatim in `mesh_processor.py`. -/
def strStl : String := "stl"

def strObj : String := "obj"

def dotStr : String := "."

def emptyStr : String := ""

def failMsg : String := "Decimation failed: "

def msgNoFile : String := "No file provided"

def msgBadReduction : String := "Target reduction must be between 0.0 and 0.95"

def msgBadFormat : String := "Only STL and OBJ files are supported"

/-- The text of `str(e)` for the `HTTPException(400, "Failed to load mesh - file may be corrupted")`
raised at line 144: starlette renders an `HTTPException` as `"{status_code}: {detail}"`. -/
def msgLoadFail : String := "400: Failed to load mesh - file may be corrupted"

/-- The text of `str(e)` for the `HTTPException(500, "Failed to export decimated mesh")`
raised at line 187 (also re-caught by the blanket `except Exception`). -/
def msgExportFail : String := "500: Failed to export decimated mesh"

def mtObj : String := "text/plain"

def mtStl : String := "application/octet-stream"

def dispPre : String := "attachment; filename=decimated_"

/-- A 3D position; the service's double-precision coordinates are embedded as exact rationals. -/
structure Vec3 where
  x : ℚ
  y : ℚ
  z : ℚ
deriving DecidableEq

/-- A triangle mesh as open3d returns it: vertex positions plus index triples. -/
structure LoadedMesh where
  vertices : List Vec3
  triangles : List (ℕ × ℕ × ℕ)
deriving DecidableEq

/-- A Python exception as observed by `except Exception as e`: only `str(e)` is used. -/
structure PyError where
  msg : String
deriving DecidableEq

/-- The open3d operations the handler calls.  They are external library code
(not part of the repository), so they are a parameter of the embedding;
each can raise an arbitrary Python exception. -/
structure Env where
  read_triangle_mesh : List ℕ → String → Except PyError LoadedMesh
  simplify_quadric_decimation : LoadedMesh → ℕ → ℚ → ℚ → Except PyError LoadedMesh
  write_triangle_mesh : String → LoadedMesh → Except PyError (Bool × List ℕ)

/-- The argument record of one `simplify_quadric_decimation` invocation. -/
structure DecCall where
  targetTriangles : ℕ
  maximumError : ℚ
  boundaryWeight : ℚ
deriving DecidableEq

/-- The statistics the handler computes at lines 147-171. -/
structure Stats where
  original_vertices : ℕ
  original_triangles : ℕ
  final_vertices : ℕ
  final_triangles : ℕ
  actual_reduction : ℚ
deriving DecidableEq

/-- The response headers dict built at lines 211-219. -/
structure RespHeaders where
  contentDisposition : String
  xOriginalVertices : String
  xFinalVertices : String
  xOriginalTriangles : String
  xFinalTriangles : String
  xReductionAchieved : String
  xFormat : String
deriving DecidableEq

/-- The handler's outcome: an `HTTPException` (status, detail) or a `Response`. -/
inductive HResp where
  | error (status : ℕ) (detail : String)
  | ok (content : List ℕ) (media_type : String) (headers : RespHeaders)
deriving DecidableEq

def HResp.status : HResp → ℕ
  | .error s _ => s
  | .ok _ _ _ => 200

/-- An uploaded file: its `filename` and the bytes `await file.read()` yields. -/
structure UploadFile where
  filename : String
  content : List ℕ
deriving DecidableEq

/-- One handler run, instrumented with what the handler did along the way:
whether the upload content was read, the decimation invocation if any,
the statistics if computed, and the extension the output was encoded with. -/
structure HandlerTrace where
  response : HResp
  fileRead : Bool
  decimateCall : Option DecCall
  stats : Option Stats
  outputExt : Option String
deriving DecidableEq

/-- Python `int()` on a float: truncation toward zero. -/
def pyInt (q : ℚ) : ℤ := if 0 ≤ q then ⌊q⌋ else ⌈q⌉

/-- Line 152: `target_triangles = max(4, int(original_triangles * (1 - target_reduction)))`. -/
def targetTriangles (original_triangles : ℕ) (target_reduction : ℚ) : ℕ :=
  (max 4 (pyInt ((original_triangles : ℚ) * (1 - target_reduction)))).toNat

/-- Modelled from the spec: the spec's formula for the target triangle count,
`max(4, round(original*(1-reduction)))`, using rounding where the code's
line 152 uses `int()` truncation.  Declared only to compare the spec's
wording with the code's computation. -/
def specTargetTriangles (original_triangles : ℕ) (target_reduction : ℚ) : ℕ :=
  (max 4 (round ((original_triangles : ℚ) * (1 - target_reduction)))).toNat

/-- Round half to even, the tie-breaking CPython uses when formatting. -/
def bankersRound (q : ℚ) : ℤ :=
  let f := ⌊q⌋
  let r := q - f
  if r < 1/2 then f
  else if 1/2 < r then f + 1
  else if f % 2 = 0 then f else f + 1

def zeros2 : String := "00"

def zeros1 : String := "0"

def minusStr : String := "-"

def pad3 (k : ℕ) : String :=
  if k < 10 then zeros2 ++ toString k
  else if k < 100 then zeros1 ++ toString k
  else toString k

def fmtThousandths (m : ℕ) : String :=
  toString (m / 1000) ++ dotStr ++ pad3 (m % 1000)

/-- Line 217: `f"{actual_reduction:.3f}"` — fixed-point rendering with 3 decimals. -/
def formatReduction3 (q : ℚ) : String :=
  let n := bankersRound (q * 1000)
  if n < 0 then minusStr ++ fmtThousandths (-n).toNat else fmtThousandths n.toNat

def dotChar : Char := '.'

/-- Python `str.lower()` (ASCII case mapping). -/
def pyLower (s : String) : String := ⟨s.data.map Char.toLower⟩

/-- Python `str.upper()` (ASCII case mapping). -/
def pyUpper (s : String) : String := ⟨s.data.map Char.toUpper⟩

/-- Python `str.split('.')` on a character list: cut at every dot, keeping
empty pieces, so the result is never empty. -/
def splitDot : List Char → List (List Char)
  | [] => [[]]
  | a :: as =>
    match splitDot as, decide (a = dotChar) with
    | r, true => [] :: r
    | [], false => [[a]]
    | h :: t, false => (a :: h) :: t

/-- Line 113: `file.filename.lower().split('.')[-1]`. -/
def extOf (filename : String) : String :=
  ⟨(splitDot (pyLower filename).data).getLastD []⟩

/-- The body of the `try:` block (lines 120-220).  Returns the instrumentation
trace accumulated so far together with either the built `Response` or the
exception that escaped (`HTTPException`s raised inside the block included,
since `except Exception` catches them too).  Mirrors the source line by line:
read upload, load mesh, reject zero-vertex meshes, compute the target count,
decimate with the fixed knobs `maximum_error=0.01`, `boundary_weight=0.3`,
compute statistics, re-encode in the input extension's format, build headers. -/
def tryRun (env : Env) (file : UploadFile) (target_reduction : ℚ) (file_extension : String) :
    (Option DecCall × Option Stats × Option String) × Except PyError HResp :=
  match env.read_triangle_mesh file.content file_extension with
  | Except.error e => ((none, none, none), Except.error e)
  | Except.ok mesh =>
    if mesh.vertices.length = 0 then
      ((none, none, none), Except.error ⟨msgLoadFail⟩)
    else
      let original_vertices := mesh.vertices.length
      let original_triangles := mesh.triangles.length
      let target_count := targetTriangles original_triangles target_reduction
      let call : DecCall := ⟨target_count, 1/100, 3/10⟩
      match env.simplify_quadric_decimation mesh target_count (1/100) (3/10) with
      | Except.error e => ((some call, none, none), Except.error e)
      | Except.ok decimated_mesh =>
        let final_vertices := decimated_mesh.vertices.length
        let final_triangles := decimated_mesh.triangles.length
        let actual_reduction : ℚ := 1 - (final_vertices : ℚ) / (original_vertices : ℚ)
        let s : Stats := ⟨original_vertices, original_triangles,
                          final_vertices, final_triangles, actual_reduction⟩
        let output_extension := file_extension
        match env.write_triangle_mesh output_extension decimated_mesh with
        | Except.error e => ((some call, some s, some output_extension), Except.error e)
        | Except.ok (success, output_content) =>
          if success = false then
            ((some call, some s, some output_extension), Except.error ⟨msgExportFail⟩)
          else
            let media_type := if output_extension = strObj then mtObj else mtStl
            ((some call, some s, some output_extension),
             Except.ok (HResp.ok output_content media_type
               ⟨dispPre ++ file.filename,
                toString original_vertices, toString final_vertices,
                toString original_triangles, toString final_triangles,
                formatReduction3 actual_reduction,
                pyUpper output_extension⟩))

/-- Lines 120-225: run the `try:` body; `except Exception as e` converts any
escaping exception into `HTTPException(500, f"Decimation failed: {str(e)}")`. -/
def tryBlockResult (env : Env) (file : UploadFile) (target_reduction : ℚ)
    (file_extension : String) : HandlerTrace :=
  match tryRun env file target_reduction file_extension with
  | ((call, ss, oext), Except.ok resp) => ⟨resp, true, call, ss, oext⟩
  | ((call, ss, oext), Except.error e) =>
      ⟨HResp.error 500 (failMsg ++ e.msg), true, call, ss, oext⟩

/-- The `/decimate` endpoint `decimate_mesh` (lines 65-225): filename check,
reduction-ratio range check, extension check — all before the upload content
is read — then the `try:` block. -/
def decimate_mesh (env : Env) (file : UploadFile) (target_reduction : ℚ) : HandlerTrace :=
  if file.filename = emptyStr then ⟨HResp.error 400 msgNoFile, false, none, none, none⟩
  else if target_reduction < 0 ∨ 95/100 < target_reduction then
    ⟨HResp.error 400 msgBadReduction, false, none, none, none⟩
  else
    let file_extension := extOf file.filename
    if file_extension ≠ strStl ∧ file_extension ≠ strObj then
      ⟨HResp.error 400 msgBadFormat, false, none, none, none⟩
    else
      tryBlockResult env file target_reduction file_extension

/-! ## The decimation core, modelled from the spec

The repository contains no decimation algorithm: `decimate_mesh` delegates
to open3d's `simplify_quadric_decimation`.  The spec (sections 3-6)
describes the intended core — a quadric-error-metric edge-collapse
decimator with a tombstoning mesh store, a lazily-invalidated candidate
queue with deterministic tie-breaking, a collapse executor with an error
ceiling and a hard floor of 4 live triangles, and a driver loop.  The
definitions below model that core from the spec's words. -/

/-- Modelled from the spec (section 3): a vertex with its position, a
liveness flag (tombstoning) and a version stamp used to detect stale
queue candidates (section 9). -/
structure CVertex where
  pos : Vec3
  live : Bool
  gen : ℕ
deriving DecidableEq

/-- Modelled from the spec (section 3): a triangle as three vertex indices
plus a liveness flag. -/
structure CTri where
  i1 : ℕ
  i2 : ℕ
  i3 : ℕ
  live : Bool
deriving DecidableEq

/-- Modelled from the spec (section 4.1): the Mesh Store's arrays. -/
structure CMesh where
  verts : List CVertex
  tris : List CTri
deriving DecidableEq

/-- Live triangle count (spec 4.1: `triangleCount` counts live entries only). -/
def liveTriCount (m : CMesh) : ℕ := (m.tris.filter (fun t => t.live)).length

/-- Live vertex count (spec 4.1: `vertexCount` counts live entries only). -/
def liveVertCount (m : CMesh) : ℕ := (m.verts.filter (fun v => v.live)).length

def getVert (m : CMesh) (i : ℕ) : Option CVertex := m.verts.get? i

def genOf (m : CMesh) (i : ℕ) : ℕ := ((getVert m i).map (fun v => v.gen)).getD 0

def liveOf (m : CMesh) (i : ℕ) : Bool := ((getVert m i).map (fun v => v.live)).getD false

/-- Modelled from the spec (section 3): an edge-collapse candidate — the
unordered endpoint pair (stored low index first), the cost and optimal
position, and the endpoints' version stamps captured at insertion time. -/
structure Candidate where
  v1 : ℕ
  v2 : ℕ
  cost : ℚ
  pos : Vec3
  g1 : ℕ
  g2 : ℕ
deriving DecidableEq

/-- Every field of a candidate, flattened for lexicographic comparison.
The spec (4.3) orders by ascending cost with ties broken by the lower
vertex-index pair; comparing the remaining fields after that keeps the
order total on candidate values. -/
def keyL (c : Candidate) : List ℚ :=
  [c.cost, (c.v1 : ℚ), (c.v2 : ℚ), c.pos.x, c.pos.y, c.pos.z, (c.g1 : ℚ), (c.g2 : ℚ)]

/-- Lexicographic less-or-equal on rational lists. -/
def lexQ : List ℚ → List ℚ → Bool
  | [], _ => true
  | _ :: _, [] => false
  | a :: as, b :: bs => if a < b then true else if b < a then false else lexQ as bs

/-- The cheaper of two candidates under the queue's total order. -/
def minC (c d : Candidate) : Candidate := if lexQ (keyL c) (keyL d) = true then c else d

def stepMin (c : Candidate) (acc : Option Candidate) : Option Candidate :=
  match acc with
  | none => some c
  | some d => some (minC c d)

/-- Modelled from the spec (section 4.3): `popCheapest` — the minimum of the
(already staleness-filtered) queue under ascending cost with deterministic
tie-breaking; `none` when the queue is empty. -/
def popCheapest (l : List Candidate) : Option Candidate := l.foldr stepMin none

def remapIdx (v1 v2 i : ℕ) : ℕ := if i = v2 then v1 else i

/-- Reassign one triangle's references from `v2` to `v1`; a live triangle
that becomes degenerate (repeated index) is tombstoned (spec 4.1). -/
def remapTri (v1 v2 : ℕ) (t : CTri) : CTri :=
  let a := remapIdx v1 v2 t.i1
  let b := remapIdx v1 v2 t.i2
  let c := remapIdx v1 v2 t.i3
  { i1 := a, i2 := b, i3 := c, live := t.live && !(a = b || b = c || a = c : Bool) }

def modifyAt {α : Type} : ℕ → (α → α) → List α → List α
  | _, _, [] => []
  | 0, f, a :: as => f a :: as
  | n + 1, f, a :: as => a :: modifyAt n f as

/-- Modelled from the spec (section 4.1): `collapseEdge` merges `v2` into
`v1` — every triangle referencing `v2` is remapped to `v1`, `v1` takes the
merged position and a bumped version stamp, `v2` is tombstoned, and any
triangle that becomes degenerate is tombstoned. -/
def collapseEdge (m : CMesh) (v1 v2 : ℕ) (p : Vec3) : CMesh :=
  { verts := modifyAt v1 (fun v => { v with pos := p, gen := v.gen + 1 })
               (modifyAt v2 (fun v => { v with live := false, gen := v.gen + 1 }) m.verts),
    tris := m.tris.map (remapTri v1 v2) }

/-- The number of live triangles a collapse of `(v1, v2)` would tombstone. -/
def degenCount (m : CMesh) (v1 v2 : ℕ) : ℕ :=
  (m.tris.filter (fun t => t.live && !(remapTri v1 v2 t).live)).length

/-- Modelled from the spec (sections 4.3, 9): a candidate is live iff both
endpoints are live and their current version stamps match the stamps
captured when the candidate was scored. -/
def candLive (m : CMesh) (c : Candidate) : Bool :=
  liveOf m c.v1 && liveOf m c.v2 && (genOf m c.v1 == c.g1) && (genOf m c.v2 == c.g2)

/-- Build a scored candidate for the unordered pair `{a, b}`, capturing the
endpoints' current version stamps. -/
def mkCandidate (score : CMesh → ℕ → ℕ → ℚ × Vec3) (m : CMesh) (a b : ℕ) : Candidate :=
  let u := min a b
  let v := max a b
  let cp := score m u v
  { v1 := u, v2 := v, cost := cp.1, pos := cp.2, g1 := genOf m u, g2 := genOf m v }

/-- Modelled from the spec (section 4.3): after a collapse, every edge still
incident to the surviving vertex is re-scored and re-inserted. -/
def rescore (score : CMesh → ℕ → ℕ → ℚ × Vec3) (m : CMesh) (v1 : ℕ) : List Candidate :=
  (m.tris.filter (fun t => t.live && (t.i1 == v1 || t.i2 == v1 || t.i3 == v1))).flatMap
    (fun t => ([t.i1, t.i2, t.i3].filter (fun i => i ≠ v1)).map (mkCandidate score m v1))

/-- Modelled from the spec (section 4.5, Seeding): the initial queue holds a
scored candidate for every edge of every live triangle. -/
def seedQueue (score : CMesh → ℕ → ℕ → ℚ × Vec3) (m : CMesh) : List Candidate :=
  (m.tris.filter (fun t => t.live)).flatMap
    (fun t => [mkCandidate score m t.i1 t.i2, mkCandidate score m t.i2 t.i3,
               mkCandidate score m t.i1 t.i3])

inductive StopReason where
  | targetReached
  | queueExhausted
deriving DecidableEq

/-- Modelled from the spec (sections 4.4, 4.5): the Reducing loop.  Stop once
the live triangle count is at or below the effective target (the requested
target, floored at 4 — spec 4.5 enforces a hard floor of 4 live triangles);
otherwise pop the cheapest live candidate; reject it if the geometric
validity guard fails, if its cost exceeds `maximum_error` (spec 4.4, the
hard ceiling that can exhaust the queue before the target is reached), or
if applying it would drop the live count below the floor of 4; on
acceptance collapse the edge and re-score the surviving vertex's
neighborhood.  `fuel` is the caller-imposed iteration budget (spec section
5): when it runs out the driver stops as if the queue were exhausted. -/
def driverLoop (score : CMesh → ℕ → ℕ → ℚ × Vec3) (valid : CMesh → Candidate → Bool)
    (maxErr : ℚ) (target : ℕ) : ℕ → CMesh → List Candidate → CMesh × StopReason
  | 0, m, _ => (m, StopReason.queueExhausted)
  | fuel + 1, m, q =>
    if liveTriCount m ≤ max 4 target then (m, StopReason.targetReached)
    else
      let ql := q.filter (candLive m)
      match popCheapest ql with
      | none => (m, StopReason.queueExhausted)
      | some c =>
        let qr := ql.erase c
        if valid m c = true ∧ c.cost ≤ maxErr ∧ 4 ≤ liveTriCount m - degenCount m c.v1 c.v2 then
          let mc := collapseEdge m c.v1 c.v2 c.pos
          driverLoop score valid maxErr target fuel mc (qr ++ rescore score mc c.v1)
        else
          driverLoop score valid maxErr target fuel m qr

def rankOf (verts : List CVertex) (j : ℕ) : ℕ :=
  ((verts.take j).filter (fun v => v.live)).length

/-- Modelled from the spec (section 4.1): `compact()` removes tombstones once
at the end of decimation and remaps indices, keeping surviving entries in
their original relative order. -/
def compactMesh (m : CMesh) : CMesh :=
  { verts := m.verts.filter (fun v => v.live),
    tris := (m.tris.filter (fun t => t.live)).map
      (fun t => { i1 := rankOf m.verts t.i1, i2 := rankOf m.verts t.i2,
                  i3 := rankOf m.verts t.i3, live := true }) }

inductive DecimationError where
  | emptyMesh
deriving DecidableEq

/-- The result record of spec section 6. -/
structure DecResult where
  mesh : CMesh
  stopReason : StopReason
  original_vertex_count : ℕ
  final_vertex_count : ℕ
  original_triangle_count : ℕ
  final_triangle_count : ℕ
  achieved_reduction : ℚ
deriving DecidableEq

/-- Modelled from the spec (sections 4.5, 6, 7): the core entry point
`decimate`.  An empty input mesh is a fatal `EmptyMeshError` before
seeding; otherwise seed the queue, run the driver, compact, and report
statistics including achieved reduction
`1 - final_vertex_count / original_vertex_count`.  The per-candidate
scoring (quadric accumulation, optimal position; spec 4.2) and the
orientation-flip guard (spec 4.4) are parameters: their numeric content —
area-weighted plane quadrics of floating-point geometry — is irrational in
general, and no claim depends on the scores' values.  `score` receives the
caller's `boundary_weight` (spec 4.2: boundary scaling happens inside
scoring). -/
def decimate (score : ℚ → CMesh → ℕ → ℕ → ℚ × Vec3) (valid : CMesh → Candidate → Bool)
    (fuel : ℕ) (m0 : CMesh) (target_triangle_count : ℕ) (maximum_error : ℚ)
    (boundary_weight : ℚ) : Except DecimationError DecResult :=
  if m0.verts.length = 0 ∨ m0.tris.length = 0 then Except.error DecimationError.emptyMesh
  else
    let sc := score boundary_weight
    let out := driverLoop sc valid maximum_error target_triangle_count fuel m0 (seedQueue sc m0)
    let mc := compactMesh out.1
    Except.ok
      { mesh := mc, stopReason := out.2,
        original_vertex_count := liveVertCount m0, final_vertex_count := liveVertCount mc,
        original_triangle_count := liveTriCount m0, final_triangle_count := liveTriCount mc,
        achieved_reduction := 1 - (liveVertCount mc : ℚ) / (liveVertCount m0 : ℚ) }

/-! ## Properties of the candidate queue's total order -/

theorem lexQ_cons (a b : ℚ) (as bs : List ℚ) :
    lexQ (a :: as) (b :: bs)
      = (if a < b then true else if b < a then false else lexQ as bs) := rfl

theorem lexQ_total : ∀ as bs : List ℚ, lexQ as bs = true ∨ lexQ bs as = true := by
  intro as
  induction as with
  | nil => intro bs; left; rfl
  | cons a as ih =>
    intro bs
    cases bs with
    | nil => right; rfl
    | cons b bs =>
      rcases lt_trichotomy a b with h | h | h
      · left; simp [lexQ_cons, h]
      · subst h
        rcases ih bs with h2 | h2
        · left; simp [lexQ_cons, lt_irrefl, h2]
        · right; simp [lexQ_cons, lt_irrefl, h2]
      · right; simp [lexQ_cons, h]

theorem lexQ_antisymm : ∀ as bs : List ℚ, lexQ as bs = true → lexQ bs as = true → as = bs := by
  intro as
  induction as with
  | nil =>
    intro bs _ h2
    cases bs with
    | nil => rfl
    | cons b bs => simp [lexQ] at h2
  | cons a as ih =>
    intro bs h1 h2
    cases bs with
    | nil => simp [lexQ] at h1
    | cons b bs =>
      rcases lt_trichotomy a b with h | h | h
      · simp [lexQ_cons, h, asymm h] at h2
      · subst h
        simp only [lexQ_cons, lt_irrefl, if_false] at h1 h2
        rw [ih bs h1 h2]
      · simp [lexQ_cons, h, asymm h] at h1

theorem lexQ_trans :
    ∀ as bs cs : List ℚ, lexQ as bs = true → lexQ bs cs = true → lexQ as cs = true := by
  intro as
  induction as with
  | nil => intro bs cs _ _; rfl
  | cons a as ih =>
    intro bs cs h1 h2
    cases bs with
    | nil => simp [lexQ] at h1
    | cons b bs =>
      cases cs with
      | nil => simp [lexQ] at h2
      | cons c cs =>
        rcases lt_trichotomy a b with hab | hab | hab
        · rcases lt_trichotomy b c with hbc | hbc | hbc
          · simp [lexQ_cons, lt_trans hab hbc]
          · subst hbc; simp [lexQ_cons, hab]
          · simp [lexQ_cons, hbc, asymm hbc] at h2
        · subst hab
          rcases lt_trichotomy a c with hac | hac | hac
          · simp [lexQ_cons, hac]
          · subst hac
            simp only [lexQ_cons, lt_irrefl, if_false] at h1 h2 ⊢
            exact ih _ _ h1 h2
          · simp [lexQ_cons, hac, asymm hac] at h2
        · simp [lexQ_cons, hab, asymm hab] at h1

theorem keyL_inj : ∀ c d : Candidate, keyL c = keyL d → c = d := by
  intro c d h
  obtain ⟨v1, v2, cost, ⟨x, y, z⟩, g1, g2⟩ := c
  obtain ⟨w1, w2, cost2, ⟨x2, y2, z2⟩, h1, h2⟩ := d
  simp [keyL] at h
  obtain ⟨e1, e2, e3, e4, e5, e6, e7, e8⟩ := h
  subst e1; subst e2; subst e3; subst e4; subst e5; subst e6; subst e7; subst e8
  rfl

theorem minC_comm (c d : Candidate) : minC c d = minC d c := by
  by_cases h1 : lexQ (keyL c) (keyL d) = true <;>
    by_cases h2 : lexQ (keyL d) (keyL c) = true <;>
      simp [minC, h1, h2]
  · exact keyL_inj c d (lexQ_antisymm _ _ h1 h2)
  · rcases lexQ_total (keyL c) (keyL d) with h | h
    · exact absurd h h1
    · exact absurd h h2

theorem minC_assoc (c d e : Candidate) : minC (minC c d) e = minC c (minC d e) := by
  by_cases h1 : lexQ (keyL c) (keyL d) = true <;>
    by_cases h2 : lexQ (keyL d) (keyL e) = true
  · have h3 : lexQ (keyL c) (keyL e) = true := lexQ_trans _ _ _ h1 h2
    simp [minC, h1, h2, h3]
  · simp [minC, h1, h2]
  · simp [minC, h1, h2]
  · by_cases h3 : lexQ (keyL c) (keyL e) = true
    · have h1c : lexQ (keyL d) (keyL c) = true := by
        rcases lexQ_total (keyL c) (keyL d) with h | h
        · exact absurd h h1
        · exact h
      have : lexQ (keyL d) (keyL e) = true := lexQ_trans _ _ _ h1c h3
      exact absurd this h2
    · simp [minC, h1, h2, h3]

theorem stepMin_swap (a b : Candidate) (x : Option Candidate) :
    stepMin a (stepMin b x) = stepMin b (stepMin a x) := by
  cases x with
  | none => simp [stepMin, minC_comm a b]
  | some d =>
    simp only [stepMin]
    rw [← minC_assoc, ← minC_assoc, minC_comm a b]

/-- The queue's selection depends only on the multiset of candidates: the
deterministic tie-breaking makes `popCheapest` invariant under any
permutation of the backing list. -/
theorem popCheapest_perm {l1 l2 : List Candidate} (h : List.Perm l1 l2) :
    popCheapest l1 = popCheapest l2 := by
  induction h with
  | nil => rfl
  | cons x _ ih =>
    show stepMin x (popCheapest _) = stepMin x (popCheapest _)
    rw [ih]
  | swap x y l =>
    exact stepMin_swap y x (popCheapest l)
  | trans _ _ ih1 ih2 => exact ih1.trans ih2

/-! ## Counting lemmas for edge collapse and compaction -/

theorem countSplit (f : CTri → CTri) (hf : ∀ t, t.live = false → (f t).live = false) :
    ∀ l : List CTri,
      ((l.map f).filter (fun t => t.live)).length
        + (l.filter (fun t => t.live && !(f t).live)).length
        = (l.filter (fun t => t.live)).length := by
  intro l
  induction l with
  | nil => rfl
  | cons t l ih =>
    simp only [List.map_cons, List.filter_cons]
    cases ht : t.live with
    | false =>
      have hft : (f t).live = false := hf t ht
      simp [ht, hft]
      omega
    | true =>
      cases hft : (f t).live with
      | false =>
        simp [ht, hft]
        omega
      | true =>
        simp [ht, hft]
        omega

theorem collapse_count (m : CMesh) (v1 v2 : ℕ) (p : Vec3) :
    liveTriCount (collapseEdge m v1 v2 p) + degenCount m v1 v2 = liveTriCount m :=
  countSplit (remapTri v1 v2) (fun t ht => by simp [remapTri, ht]) m.tris

theorem collapse_le (m : CMesh) (v1 v2 : ℕ) (p : Vec3) :
    liveTriCount (collapseEdge m v1 v2 p) ≤ liveTriCount m := by
  have := collapse_count m v1 v2 p
  omega

theorem compact_tris (m : CMesh) : liveTriCount (compactMesh m) = liveTriCount m := by
  simp [liveTriCount, compactMesh, List.filter_map, Function.comp]

theorem compact_verts (m : CMesh) : liveVertCount (compactMesh m) = liveVertCount m := by
  simp [liveVertCount, compactMesh, List.filter_filter]

/-! ## Driver-loop invariants -/

theorem driver_mono (score : CMesh → ℕ → ℕ → ℚ × Vec3) (valid : CMesh → Candidate → Bool)
    (me : ℚ) (t : ℕ) :
    ∀ (fuel : ℕ) (m : CMesh) (q : List Candidate),
      liveTriCount (driverLoop score valid me t fuel m q).1 ≤ liveTriCount m := by
  intro fuel
  induction fuel with
  | zero => intro m q; exact le_refl _
  | succ n ih =>
    intro m q
    simp only [driverLoop]
    by_cases hstop : liveTriCount m ≤ max 4 t
    · rw [if_pos hstop]
    · rw [if_neg hstop]
      cases hpop : popCheapest (q.filter (candLive m)) with
      | none => exact le_refl _
      | some c =>
        dsimp only
        by_cases hacc : valid m c = true ∧ c.cost ≤ me
            ∧ 4 ≤ liveTriCount m - degenCount m c.v1 c.v2
        · rw [if_pos hacc]
          exact le_trans (ih _ _) (collapse_le _ _ _ _)
        · rw [if_neg hacc]
          exact ih _ _

theorem driver_floor (score : CMesh → ℕ → ℕ → ℚ × Vec3) (valid : CMesh → Candidate → Bool)
    (me : ℚ) (t : ℕ) :
    ∀ (fuel : ℕ) (m : CMesh) (q : List Candidate),
      min 4 (liveTriCount m) ≤ liveTriCount (driverLoop score valid me t fuel m q).1 := by
  intro fuel
  induction fuel with
  | zero => intro m q; exact min_le_right _ _
  | succ n ih =>
    intro m q
    simp only [driverLoop]
    by_cases hstop : liveTriCount m ≤ max 4 t
    · rw [if_pos hstop]
      exact min_le_right _ _
    · rw [if_neg hstop]
      cases hpop : popCheapest (q.filter (candLive m)) with
      | none => exact min_le_right _ _
      | some c =>
        dsimp only
        by_cases hacc : valid m c = true ∧ c.cost ≤ me
            ∧ 4 ≤ liveTriCount m - degenCount m c.v1 c.v2
        · rw [if_pos hacc]
          obtain ⟨-, -, h4⟩ := hacc
          have hc := collapse_count m c.v1 c.v2 c.pos
          have hrest := ih (collapseEdge m c.v1 c.v2 c.pos)
            ((q.filter (candLive m)).erase c ++
              rescore score (collapseEdge m c.v1 c.v2 c.pos) c.v1)
          omega
        · rw [if_neg hacc]
          exact ih _ _

theorem driver_target (score : CMesh → ℕ → ℕ → ℚ × Vec3) (valid : CMesh → Candidate → Bool)
    (me : ℚ) (t : ℕ) :
    ∀ (fuel : ℕ) (m : CMesh) (q : List Candidate),
      (driverLoop score valid me t fuel m q).2 = StopReason.targetReached →
        liveTriCount (driverLoop score valid me t fuel m q).1 ≤ max 4 t := by
  intro fuel
  induction fuel with
  | zero => intro m q h; exact absurd h (by simp [driverLoop])
  | succ n ih =>
    intro m q
    simp only [driverLoop]
    by_cases hstop : liveTriCount m ≤ max 4 t
    · rw [if_pos hstop]
      intro _
      exact hstop
    · rw [if_neg hstop]
      cases hpop : popCheapest (q.filter (candLive m)) with
      | none => intro h; exact absurd h (by simp)
      | some c =>
        dsimp only
        by_cases hacc : valid m c = true ∧ c.cost ≤ me
            ∧ 4 ≤ liveTriCount m - degenCount m c.v1 c.v2
        · rw [if_pos hacc]
          exact ih _ _
        · rw [if_neg hacc]
          exact ih _ _

/-! ## Handler plumbing lemmas -/

theorem tryBlock_proj (env : Env) (f : UploadFile) (tr : ℚ) (ext : String) :
    (tryBlockResult env f tr ext).decimateCall = (tryRun env f tr ext).1.1 ∧
    (tryBlockResult env f tr ext).stats = (tryRun env f tr ext).1.2.1 ∧
    (tryBlockResult env f tr ext).outputExt = (tryRun env f tr ext).1.2.2 ∧
    (tryBlockResult env f tr ext).fileRead = true := by
  unfold tryBlockResult
  rcases h : tryRun env f tr ext with ⟨⟨call, ss, oext⟩, out⟩
  cases out <;> simp

theorem tryBlock_ok (env : Env) (f : UploadFile) (tr : ℚ) (ext : String)
    (content : List ℕ) (mt : String) (hs : RespHeaders) :
    (tryBlockResult env f tr ext).response = HResp.ok content mt hs →
    (tryRun env f tr ext).2 = Except.ok (HResp.ok content mt hs) := by
  unfold tryBlockResult
  rcases h : tryRun env f tr ext with ⟨⟨call, ss, oext⟩, out⟩
  cases out <;> simp_all

theorem tryBlock_err (env : Env) (f : UploadFile) (tr : ℚ) (ext : String) (e : PyError) :
    (tryRun env f tr ext).2 = Except.error e →
    (tryBlockResult env f tr ext).response = HResp.error 500 (failMsg ++ e.msg) := by
  unfold tryBlockResult
  rcases h : tryRun env f tr ext with ⟨⟨call, ss, oext⟩, out⟩
  cases out <;> simp_all

/-- Case split on the handler's three validation gates (lines 105-115): each
rejection yields a 400 before the upload is read, and otherwise the `try:`
block runs. -/
theorem handler_cases (env : Env) (f : UploadFile) (tr : ℚ) :
    (f.filename = emptyStr ∧
      decimate_mesh env f tr = ⟨HResp.error 400 msgNoFile, false, none, none, none⟩)
  ∨ (f.filename ≠ emptyStr ∧ (tr < 0 ∨ 95/100 < tr) ∧
      decimate_mesh env f tr = ⟨HResp.error 400 msgBadReduction, false, none, none, none⟩)
  ∨ (f.filename ≠ emptyStr ∧ ¬(tr < 0 ∨ 95/100 < tr) ∧
      (extOf f.filename ≠ strStl ∧ extOf f.filename ≠ strObj) ∧
      decimate_mesh env f tr = ⟨HResp.error 400 msgBadFormat, false, none, none, none⟩)
  ∨ (f.filename ≠ emptyStr ∧ ¬(tr < 0 ∨ 95/100 < tr) ∧
      ¬(extOf f.filename ≠ strStl ∧ extOf f.filename ≠ strObj) ∧
      decimate_mesh env f tr = tryBlockResult env f tr (extOf f.filename)) := by
  unfold decimate_mesh
  by_cases h1 : f.filename = emptyStr
  · left; exact ⟨h1, by rw [if_pos h1]⟩
  · right
    by_cases h2 : tr < 0 ∨ 95/100 < tr
    · left; exact ⟨h1, h2, by rw [if_neg h1, if_pos h2]⟩
    · right
      by_cases h3 : extOf f.filename ≠ strStl ∧ extOf f.filename ≠ strObj
      · left; exact ⟨h1, h2, h3, by rw [if_neg h1, if_neg h2]; exact if_pos h3⟩
      · right; exact ⟨h1, h2, h3, by rw [if_neg h1, if_neg h2]; exact if_neg h3⟩

/-- The `simplify_quadric_decimation` invocation record built at lines 160-164. -/
def callOf (mesh : LoadedMesh) (tr : ℚ) : DecCall :=
  ⟨targetTriangles mesh.triangles.length tr, 1/100, 3/10⟩

/-- The statistics record computed at lines 147-171. -/
def statsOf (mesh dm : LoadedMesh) : Stats :=
  ⟨mesh.vertices.length, mesh.triangles.length, dm.vertices.length, dm.triangles.length,
   1 - (dm.vertices.length : ℚ) / (mesh.vertices.length : ℚ)⟩

/-- The media type chosen at lines 191-198. -/
def mediaTypeOf (ext : String) : String := if ext = strObj then mtObj else mtStl

/-- The headers dict built at lines 211-219. -/
def headersOf (f : UploadFile) (ext : String) (mesh dm : LoadedMesh) : RespHeaders :=
  ⟨dispPre ++ f.filename,
   toString mesh.vertices.length, toString dm.vertices.length,
   toString mesh.triangles.length, toString dm.triangles.length,
   formatReduction3 (1 - (dm.vertices.length : ℚ) / (mesh.vertices.length : ℚ)),
   pyUpper ext⟩

/-- Exhaustive enumeration of the `try:` block's control paths, by the
outcomes of the three external open3d calls. -/
theorem tryRun_cases (env : Env) (f : UploadFile) (tr : ℚ) (ext : String) :
    (∃ e, env.read_triangle_mesh f.content ext = Except.error e ∧
       tryRun env f tr ext = ((none, none, none), Except.error e))
  ∨ (∃ mesh, env.read_triangle_mesh f.content ext = Except.ok mesh ∧
       mesh.vertices.length = 0 ∧
       tryRun env f tr ext = ((none, none, none), Except.error ⟨msgLoadFail⟩))
  ∨ (∃ mesh e, env.read_triangle_mesh f.content ext = Except.ok mesh ∧
       mesh.vertices.length ≠ 0 ∧
       env.simplify_quadric_decimation mesh (targetTriangles mesh.triangles.length tr)
         (1/100) (3/10) = Except.error e ∧
       tryRun env f tr ext = ((some (callOf mesh tr), none, none), Except.error e))
  ∨ (∃ mesh dm e, env.read_triangle_mesh f.content ext = Except.ok mesh ∧
       mesh.vertices.length ≠ 0 ∧
       env.simplify_quadric_decimation mesh (targetTriangles mesh.triangles.length tr)
         (1/100) (3/10) = Except.ok dm ∧
       env.write_triangle_mesh ext dm = Except.error e ∧
       tryRun env f tr ext
         = ((some (callOf mesh tr), some (statsOf mesh dm), some ext), Except.error e))
  ∨ (∃ mesh dm sb, env.read_triangle_mesh f.content ext = Except.ok mesh ∧
       mesh.vertices.length ≠ 0 ∧
       env.simplify_quadric_decimation mesh (targetTriangles mesh.triangles.length tr)
         (1/100) (3/10) = Except.ok dm ∧
       env.write_triangle_mesh ext dm = Except.ok sb ∧ sb.1 = false ∧
       tryRun env f tr ext
         = ((some (callOf mesh tr), some (statsOf mesh dm), some ext),
            Except.error ⟨msgExportFail⟩))
  ∨ (∃ mesh dm sb, env.read_triangle_mesh f.content ext = Except.ok mesh ∧
       mesh.vertices.length ≠ 0 ∧
       env.simplify_quadric_decimation mesh (targetTriangles mesh.triangles.length tr)
         (1/100) (3/10) = Except.ok dm ∧
       env.write_triangle_mesh ext dm = Except.ok sb ∧ sb.1 ≠ false ∧
       tryRun env f tr ext
         = ((some (callOf mesh tr), some (statsOf mesh dm), some ext),
            Except.ok (HResp.ok sb.2 (mediaTypeOf ext) (headersOf f ext mesh dm)))) := by
  unfold tryRun
  cases hread : env.read_triangle_mesh f.content ext with
  | error e => exact Or.inl ⟨e, rfl, rfl⟩
  | ok mesh =>
    by_cases h0 : mesh.vertices.length = 0
    · exact Or.inr (Or.inl ⟨mesh, rfl, h0, by simp [h0]⟩)
    · cases hsim : env.simplify_quadric_decimation mesh
          (targetTriangles mesh.triangles.length tr) (1/100) (3/10) with
      | error e =>
        refine Or.inr (Or.inr (Or.inl ⟨mesh, e, rfl, h0, hsim, ?_⟩))
        simp only [if_neg h0]
        rw [hsim]
        rfl
      | ok dm =>
        cases hw : env.write_triangle_mesh ext dm with
        | error e =>
          refine Or.inr (Or.inr (Or.inr (Or.inl ⟨mesh, dm, e, rfl, h0, hsim, hw, ?_⟩)))
          simp only [if_neg h0]
          rw [hsim]
          dsimp only
          rw [hw]
          rfl
        | ok sb =>
          rcases sb with ⟨success, bytes⟩
          by_cases hsuc : success = false
          · refine Or.inr (Or.inr (Or.inr (Or.inr (Or.inl
              ⟨mesh, dm, ⟨success, bytes⟩, rfl, h0, hsim, hw, hsuc, ?_⟩))))
            simp only [if_neg h0]
            rw [hsim]
            dsimp only
            rw [hw]
            simp [hsuc, callOf, statsOf]
          · refine Or.inr (Or.inr (Or.inr (Or.inr (Or.inr
              ⟨mesh, dm, ⟨success, bytes⟩, rfl, h0, hsim, hw, hsuc, ?_⟩))))
            simp only [if_neg h0]
            rw [hsim]
            dsimp only
            rw [hw]
            simp [hsuc, mediaTypeOf, headersOf, callOf, statsOf]

theorem tryRun_knobs (env : Env) (f : UploadFile) (tr : ℚ) (ext : String) (c : DecCall) :
    (tryRun env f tr ext).1.1 = some c →
    c.maximumError = 1/100 ∧ c.boundaryWeight = 3/10 := by
  intro h
  rcases tryRun_cases env f tr ext with
      ⟨e, -, heq⟩ | ⟨mesh, -, -, heq⟩ | ⟨mesh, e, -, -, -, heq⟩ |
      ⟨mesh, dm, e, -, -, -, -, heq⟩ | ⟨mesh, dm, sb, -, -, -, -, -, heq⟩ |
      ⟨mesh, dm, sb, -, -, -, -, -, heq⟩ <;>
    rw [heq] at h <;> simp only [Option.some.injEq] at h
  · exact absurd h (by simp)
  · exact absurd h (by simp)
  all_goals rw [← h]; exact ⟨rfl, rfl⟩

theorem tryRun_call_target (env : Env) (f : UploadFile) (tr : ℚ) (ext : String)
    (mesh0 : LoadedMesh) (c : DecCall) :
    env.read_triangle_mesh f.content ext = Except.ok mesh0 →
    (tryRun env f tr ext).1.1 = some c →
    c.targetTriangles = targetTriangles mesh0.triangles.length tr := by
  intro hread h
  rcases tryRun_cases env f tr ext with
      ⟨e, hr, heq⟩ | ⟨mesh, hr, -, heq⟩ | ⟨mesh, e, hr, -, -, heq⟩ |
      ⟨mesh, dm, e, hr, -, -, -, heq⟩ | ⟨mesh, dm, sb, hr, -, -, -, -, heq⟩ |
      ⟨mesh, dm, sb, hr, -, -, -, -, heq⟩ <;>
    rw [heq] at h <;> simp only [Option.some.injEq] at h
  · exact absurd h (by simp)
  · exact absurd h (by simp)
  all_goals
    rw [hread] at hr
    rw [Except.ok.injEq] at hr
    subst hr
    rw [← h]
    rfl

theorem tryRun_stats (env : Env) (f : UploadFile) (tr : ℚ) (ext : String) (s : Stats) :
    (tryRun env f tr ext).1.2.1 = some s →
    s.actual_reduction = 1 - (s.final_vertices : ℚ) / (s.original_vertices : ℚ) := by
  intro h
  rcases tryRun_cases env f tr ext with
      ⟨e, -, heq⟩ | ⟨mesh, -, -, heq⟩ | ⟨mesh, e, -, -, -, heq⟩ |
      ⟨mesh, dm, e, -, -, -, -, heq⟩ | ⟨mesh, dm, sb, -, -, -, -, -, heq⟩ |
      ⟨mesh, dm, sb, -, -, -, -, -, heq⟩ <;>
    rw [heq] at h <;> simp only [Option.some.injEq] at h
  · exact absurd h (by simp)
  · exact absurd h (by simp)
  · exact absurd h (by simp)
  all_goals rw [← h]; rfl

theorem tryRun_ok_resp (env : Env) (f : UploadFile) (tr : ℚ) (ext : String)
    (content : List ℕ) (mt : String) (hs : RespHeaders) :
    (tryRun env f tr ext).2 = Except.ok (HResp.ok content mt hs) →
    hs.xFormat = pyUpper ext ∧ mt = (if ext = strObj then mtObj else mtStl) ∧
    (tryRun env f tr ext).1.2.2 = some ext := by
  intro h
  rcases tryRun_cases env f tr ext with
      ⟨e, -, heq⟩ | ⟨mesh, -, -, heq⟩ | ⟨mesh, e, -, -, -, heq⟩ |
      ⟨mesh, dm, e, -, -, -, -, heq⟩ | ⟨mesh, dm, sb, -, -, -, -, -, heq⟩ |
      ⟨mesh, dm, sb, -, -, -, -, -, heq⟩ <;>
    rw [heq] at h ⊢
  · exact absurd h (by simp)
  · exact absurd h (by simp)
  · exact absurd h (by simp)
  · exact absurd h (by simp)
  · exact absurd h (by simp)
  · simp only [Except.ok.injEq, HResp.ok.injEq] at h
    obtain ⟨-, hmt, hhs⟩ := h
    rw [← hhs, ← hmt]
    exact ⟨rfl, rfl, rfl⟩


theorem pyInt_of_nonneg (q : ℚ) (h : 0 ≤ q) : pyInt q = ⌊q⌋ := if_pos h

/-! ## Concrete fixtures used by witnesses and counterexamples -/

def v3 (a b c : ℚ) : Vec3 := ⟨a, b, c⟩

/-- A loaded mesh with 4 vertices and 2 triangles. -/
def meshA : LoadedMesh :=
  ⟨[v3 0 0 0, v3 1 0 0, v3 0 1 0, v3 0 0 1], [(0, 1, 2), (0, 1, 3)]⟩

/-- A decimated mesh with 3 vertices and 1 triangle. -/
def meshB : LoadedMesh := ⟨[v3 0 0 0, v3 1 0 0, v3 0 1 0], [(0, 1, 2)]⟩

/-- A loaded mesh with 11 triangles. -/
def mesh11 : LoadedMesh :=
  ⟨[v3 0 0 0, v3 1 0 0, v3 0 1 0], List.replicate 11 (0, 1, 2)⟩

def meshNoVerts : LoadedMesh := ⟨[], []⟩

def meshNoTris : LoadedMesh := ⟨[v3 0 0 0, v3 1 0 0, v3 0 1 0], []⟩

def fileStl : UploadFile := ⟨"model.stl", [7, 7]⟩

def envOk : Env :=
  ⟨fun _ _ => Except.ok meshA,
   fun _ _ _ _ => Except.ok meshB,
   fun _ _ => Except.ok (true, [1, 2, 3])⟩

def env11 : Env :=
  ⟨fun _ _ => Except.ok mesh11,
   fun _ _ _ _ => Except.ok meshB,
   fun _ _ => Except.ok (true, [1, 2, 3])⟩

def envNoVerts : Env :=
  ⟨fun _ _ => Except.ok meshNoVerts,
   fun _ _ _ _ => Except.ok meshB,
   fun _ _ => Except.ok (true, [1, 2, 3])⟩

def envNoTris : Env :=
  ⟨fun _ _ => Except.ok meshNoTris,
   fun _ _ _ _ => Except.ok meshB,
   fun _ _ => Except.ok (true, [1, 2, 3])⟩

def boomStr : String := "boom"

def boom2Str : String := "kaboom"

def peBoom : PyError := ⟨boomStr⟩

/-- An environment whose decimation call raises an internal exception. -/
def envBoom : Env :=
  ⟨fun _ _ => Except.ok meshA,
   fun _ _ _ _ => Except.error ⟨boomStr⟩,
   fun _ _ => Except.ok (true, [1, 2, 3])⟩

/-- Like `envBoom` but with a different internal exception text. -/
def envBoom2 : Env :=
  ⟨fun _ _ => Except.ok meshA,
   fun _ _ _ _ => Except.error ⟨boom2Str⟩,
   fun _ _ => Except.ok (true, [1, 2, 3])⟩

/-- A triangle strip: 7 vertices, 5 live triangles. -/
def stripMesh : CMesh :=
  ⟨[⟨v3 0 0 0, true, 0⟩, ⟨v3 1 0 0, true, 0⟩, ⟨v3 2 0 0, true, 0⟩, ⟨v3 3 0 0, true, 0⟩,
    ⟨v3 4 0 0, true, 0⟩, ⟨v3 5 0 0, true, 0⟩, ⟨v3 6 0 0, true, 0⟩],
   [⟨0, 1, 2, true⟩, ⟨1, 2, 3, true⟩, ⟨2, 3, 4, true⟩, ⟨3, 4, 5, true⟩, ⟨4, 5, 6, true⟩]⟩

/-- A scoring function giving every candidate cost 1 and midpoint at the origin. -/
def constScore : ℚ → CMesh → ℕ → ℕ → ℚ × Vec3 := fun _ _ _ _ => (1, v3 0 0 0)

/-- A geometric-validity guard that accepts every collapse. -/
def trueValid : CMesh → Candidate → Bool := fun _ _ => true

def getRes (x : Except DecimationError DecResult) : DecResult :=
  match x with
  | Except.ok r => r
  | Except.error _ => ⟨⟨[], []⟩, StopReason.queueExhausted, 0, 0, 0, 0, 0⟩

/-- The strip decimated to target 4 with a tight error ceiling (1/100 below
every candidate's cost): every candidate is rejected and the queue
exhausts above the target. -/
def c1bad : Except DecimationError DecResult :=
  decimate constScore trueValid 40 stripMesh 4 (1/100) (3/10)

def c1badRes : DecResult := getRes c1bad

/-- The strip decimated to target 4 with an effectively unbounded error ceiling. -/
def c1okRun : Except DecimationError DecResult :=
  decimate constScore trueValid 40 stripMesh 4 1000 (3/10)

def c1res : DecResult := getRes c1okRun

def c8run1 : Except DecimationError DecResult :=
  decimate constScore trueValid 40 stripMesh 4 1000 (3/10)

def c8res1 : DecResult := getRes c8run1

def c8run2 : Except DecimationError DecResult :=
  decimate constScore trueValid 40 c8res1.mesh 4 1000 (3/10)

def c8res2 : DecResult := getRes c8run2

def candA : Candidate := ⟨0, 1, 1, v3 0 0 0, 0, 0⟩

def candB : Candidate := ⟨1, 2, 1, v3 0 0 0, 0, 0⟩

/-! ## Claims -/

/-- C1 (counterexample): the claim `final_triangle_count <= max(4,
target_triangle_count)` for every valid input mesh and valid target fails
on the modelled core: decimating the 5-triangle strip to target 4 under
the error ceiling 1/100 (every candidate's cost exceeds it, exactly the
early-stop behavior the spec's section 4.4 and the second cube scenario
of section 8 describe) leaves all 5 triangles, and 5 > max 4 4. -/
theorem C1_counterexample :
    c1bad = Except.ok c1badRes ∧
    c1badRes.original_triangle_count = 5 ∧
    c1badRes.final_triangle_count = 5 ∧
    ¬(c1badRes.final_triangle_count ≤ max 4 4) :=
  ⟨rfl, rfl, rfl, by decide⟩

/-- C1 (amended): for every decimation run of the modelled core,
`final_triangle_count <= original_triangle_count`, the count never drops
below the hard floor (`min 4 original <= final`, so never below 4 when the
input has at least 4 triangles, regardless of the requested target), and
`final_triangle_count <= max(4, target_triangle_count)` whenever the
driver stopped because the target was reached rather than because the
queue exhausted (error-ceiling rejections or the iteration budget). -/
theorem C1_amended_bounds (score : ℚ → CMesh → ℕ → ℕ → ℚ × Vec3)
    (valid : CMesh → Candidate → Bool) (fuel : ℕ) (m0 : CMesh) (t : ℕ) (me bw : ℚ)
    (r : DecResult) (h : decimate score valid fuel m0 t me bw = Except.ok r) :
    r.final_triangle_count ≤ r.original_triangle_count ∧
    min 4 r.original_triangle_count ≤ r.final_triangle_count ∧
    (r.stopReason = StopReason.targetReached → r.final_triangle_count ≤ max 4 t) := by
  unfold decimate at h
  by_cases h0 : m0.verts.length = 0 ∨ m0.tris.length = 0
  · rw [if_pos h0] at h
    simp at h
  · rw [if_neg h0] at h
    dsimp only at h
    rw [Except.ok.injEq] at h
    subst h
    refine ⟨?_, ?_, ?_⟩
    · show liveTriCount (compactMesh _) ≤ liveTriCount m0
      rw [compact_tris]
      exact driver_mono _ _ _ _ _ _ _
    · show min 4 (liveTriCount m0) ≤ liveTriCount (compactMesh _)
      rw [compact_tris]
      exact driver_floor _ _ _ _ _ _ _
    · intro hr
      show liveTriCount (compactMesh _) ≤ max 4 t
      rw [compact_tris]
      exact driver_target _ _ _ _ _ _ _ hr

/-- C1 (witness): on the strip with an unbounded error ceiling the driver
reaches the target, and the amended bounds hold there. -/
theorem C1_amended_bounds_witness :
    c1okRun = Except.ok c1res ∧
    c1res.stopReason = StopReason.targetReached ∧
    (c1res.final_triangle_count ≤ c1res.original_triangle_count ∧
     min 4 c1res.original_triangle_count ≤ c1res.final_triangle_count) ∧
    c1res.final_triangle_count ≤ max 4 4 :=
  ⟨rfl, rfl,
   ⟨(C1_amended_bounds constScore trueValid 40 stripMesh 4 1000 (3/10) c1res rfl).1,
    (C1_amended_bounds constScore trueValid 40 stripMesh 4 1000 (3/10) c1res rfl).2.1⟩,
   (C1_amended_bounds constScore trueValid 40 stripMesh 4 1000 (3/10) c1res rfl).2.2 rfl⟩

/-- C2 (counterexample): for a loaded mesh with 11 triangles and
`target_reduction = 1/2`, the handler passes target 5 to the decimation
call — `int(11 * 0.5) = 5` — while the claim's formula
`max(4, round(11 * 0.5))` gives 6. -/
theorem C2_counterexample :
    (decimate_mesh env11 fileStl (1/2)).decimateCall = some ⟨5, 1/100, 3/10⟩ ∧
    targetTriangles 11 (1/2) = 5 ∧
    specTargetTriangles 11 (1/2) = 6 ∧
    (5 : ℕ) ≠ 6 :=
  ⟨rfl, by decide, by decide, by decide⟩

/-- C2 (amended): the target triangle count passed to the decimation call
equals `max(4, floor(original_triangles * (1 - target_reduction)))` — the
code's `int()` truncation, which agrees with floor because the value is
nonnegative for every reduction the handler accepts — not `round`. -/
theorem C2_amended_floor (env : Env) (f : UploadFile) (tr : ℚ) (mesh0 : LoadedMesh)
    (c : DecCall)
    (hread : env.read_triangle_mesh f.content (extOf f.filename) = Except.ok mesh0)
    (hc : (decimate_mesh env f tr).decimateCall = some c) :
    c.targetTriangles = (max 4 ⌊(mesh0.triangles.length : ℚ) * (1 - tr)⌋).toNat := by
  rcases handler_cases env f tr with ⟨-, heq⟩ | ⟨-, -, heq⟩ | ⟨-, -, -, heq⟩ |
      ⟨-, hrange, -, heq⟩
  · rw [heq] at hc; simp at hc
  · rw [heq] at hc; simp at hc
  · rw [heq] at hc; simp at hc
  · rw [heq] at hc
    rw [(tryBlock_proj env f tr (extOf f.filename)).1] at hc
    rw [tryRun_call_target env f tr (extOf f.filename) mesh0 c hread hc]
    unfold targetTriangles
    rw [pyInt_of_nonneg]
    push_neg at hrange
    have h1 : (0 : ℚ) ≤ 1 - tr := by linarith [hrange.2]
    exact mul_nonneg (Nat.cast_nonneg _) h1

/-- C2 (witness): the amended formula on the 11-triangle mesh. -/
theorem C2_amended_floor_witness :
    env11.read_triangle_mesh fileStl.content (extOf fileStl.filename)
      = Except.ok mesh11 ∧
    (decimate_mesh env11 fileStl (1/2)).decimateCall = some (callOf mesh11 (1/2)) ∧
    (callOf mesh11 (1/2)).targetTriangles
      = (max 4 ⌊(mesh11.triangles.length : ℚ) * (1 - 1/2)⌋).toNat :=
  ⟨rfl, rfl,
   C2_amended_floor env11 fileStl (1/2) mesh11 (callOf mesh11 (1/2)) rfl rfl⟩

/-- C3 (code bug evidence): an upload that loads as a zero-vertex mesh makes
the handler raise `HTTPException(400, ...)` inside the `try:` block, but
the blanket `except Exception` catches it and re-raises it as HTTP 500
with detail `"Decimation failed: 400: Failed to load mesh - file may be
corrupted"` — a server error, not the client error the handler's own
validation intended; and a mesh with vertices but zero triangles is not
checked at all: the decimation call is still issued (with target 4). -/
theorem C3_evidence :
    (decimate_mesh envNoVerts fileStl (1/2)).response
      = HResp.error 500 (failMsg ++ msgLoadFail) ∧
    (decimate_mesh envNoVerts fileStl (1/2)).response.status ≠ 400 ∧
    (decimate_mesh envNoTris fileStl (1/2)).decimateCall = some ⟨4, 1/100, 3/10⟩ :=
  ⟨rfl, by decide, rfl⟩

/-- C4: a request whose reduction ratio is out of range or whose lowercased
last dot-separated filename token is neither `stl` nor `obj` is rejected
with HTTP 400 before the upload content is read and before any decimation
call. -/
theorem C4_validation_rejects_early (env : Env) (f : UploadFile) (tr : ℚ)
    (h : tr < 0 ∨ 95/100 < tr ∨
      (extOf f.filename ≠ strStl ∧ extOf f.filename ≠ strObj)) :
    (decimate_mesh env f tr).response.status = 400 ∧
    (decimate_mesh env f tr).fileRead = false ∧
    (decimate_mesh env f tr).decimateCall = none := by
  rcases handler_cases env f tr with ⟨-, heq⟩ | ⟨-, -, heq⟩ | ⟨-, -, -, heq⟩ |
      ⟨-, hrange, hext, -⟩
  · rw [heq]; exact ⟨rfl, rfl, rfl⟩
  · rw [heq]; exact ⟨rfl, rfl, rfl⟩
  · rw [heq]; exact ⟨rfl, rfl, rfl⟩
  · exfalso
    rcases h with h | h | h
    · exact hrange (Or.inl h)
    · exact hrange (Or.inr h)
    · exact hext h

/-- C4 (witness): a reduction ratio of 2 is rejected early. -/
theorem C4_validation_witness :
    ((2 : ℚ) < 0 ∨ 95/100 < (2 : ℚ) ∨
      (extOf fileStl.filename ≠ strStl ∧ extOf fileStl.filename ≠ strObj)) ∧
    (decimate_mesh envOk fileStl 2).response.status = 400 ∧
    (decimate_mesh envOk fileStl 2).fileRead = false ∧
    (decimate_mesh envOk fileStl 2).decimateCall = none :=
  ⟨by decide,
   (C4_validation_rejects_early envOk fileStl 2 (by decide)).1,
   (C4_validation_rejects_early envOk fileStl 2 (by decide)).2.1,
   (C4_validation_rejects_early envOk fileStl 2 (by decide)).2.2⟩

/-- C5 (counterexample): the 500 response's detail does include the text of
the underlying exception — an internal fault with message `boom` produces
detail `"Decimation failed: boom"`, and two runs differing only in the
internal exception text produce different responses. -/
theorem C5_counterexample :
    (decimate_mesh envBoom fileStl (1/2)).response
      = HResp.error 500 (failMsg ++ boomStr) ∧
    (decimate_mesh envBoom fileStl (1/2)).response
      ≠ (decimate_mesh envBoom2 fileStl (1/2)).response :=
  ⟨rfl, by decide⟩

/-- C5 (amended): any exception escaping the `try:` block of a validated
request is mapped to HTTP 500 whose detail is `"Decimation failed: "`
followed by `str(e)` of the underlying exception — i.e. the internal
error text is included in the response, not hidden. -/
theorem C5_amended_detail (env : Env) (f : UploadFile) (tr : ℚ) (e : PyError)
    (hname : f.filename ≠ emptyStr)
    (hrange : ¬(tr < 0 ∨ 95/100 < tr))
    (hext : ¬(extOf f.filename ≠ strStl ∧ extOf f.filename ≠ strObj))
    (herr : (tryRun env f tr (extOf f.filename)).2 = Except.error e) :
    (decimate_mesh env f tr).response = HResp.error 500 (failMsg ++ e.msg) := by
  rcases handler_cases env f tr with ⟨hn, -⟩ | ⟨-, hr, -⟩ | ⟨-, -, hx, -⟩ | ⟨-, -, -, heq⟩
  · exact absurd hn hname
  · exact absurd hr hrange
  · exact absurd hx hext
  · rw [heq]
    exact tryBlock_err env f tr (extOf f.filename) e herr

/-- C5 (witness): the internal fault `boom` surfaces in the 500 detail. -/
theorem C5_amended_detail_witness :
    fileStl.filename ≠ emptyStr ∧
    ¬((1 : ℚ)/2 < 0 ∨ 95/100 < (1 : ℚ)/2) ∧
    ¬(extOf fileStl.filename ≠ strStl ∧ extOf fileStl.filename ≠ strObj) ∧
    (tryRun envBoom fileStl (1/2) (extOf fileStl.filename)).2 = Except.error peBoom ∧
    (decimate_mesh envBoom fileStl (1/2)).response
      = HResp.error 500 (failMsg ++ peBoom.msg) :=
  ⟨by decide, by decide, by decide, rfl,
   C5_amended_detail envBoom fileStl (1/2) peBoom (by decide) (by decide) (by decide) rfl⟩

/-- C6: whenever the handler computes decimation statistics with a positive
original vertex count, the achieved-reduction statistic equals
`1 - final_vertex_count / original_vertex_count` (the response header
renders this value to three decimals). -/
theorem C6_reduction_formula (env : Env) (f : UploadFile) (tr : ℚ) (s : Stats)
    (hs : (decimate_mesh env f tr).stats = some s)
    (hpos : 0 < s.original_vertices) :
    s.actual_reduction = 1 - (s.final_vertices : ℚ) / (s.original_vertices : ℚ) := by
  rcases handler_cases env f tr with ⟨-, heq⟩ | ⟨-, -, heq⟩ | ⟨-, -, -, heq⟩ | ⟨-, -, -, heq⟩
  · rw [heq] at hs; simp at hs
  · rw [heq] at hs; simp at hs
  · rw [heq] at hs; simp at hs
  · rw [heq] at hs
    rw [(tryBlock_proj env f tr (extOf f.filename)).2.1] at hs
    exact tryRun_stats env f tr (extOf f.filename) s hs

/-- C6 (witness): 4 original vertices decimated to 3 report reduction 1/4. -/
theorem C6_reduction_formula_witness :
    (decimate_mesh envOk fileStl (1/2)).stats = some (statsOf meshA meshB) ∧
    0 < (statsOf meshA meshB).original_vertices ∧
    (statsOf meshA meshB).actual_reduction
      = 1 - ((statsOf meshA meshB).final_vertices : ℚ)
          / ((statsOf meshA meshB).original_vertices : ℚ) :=
  ⟨by rfl, by decide,
   C6_reduction_formula envOk fileStl (1/2) (statsOf meshA meshB) (by rfl) (by decide)⟩

/-- C7: decimation in the modelled core is deterministic — the driver's
output is a pure function of the mesh and parameters, invariant even
under arbitrary permutation of the candidate queue, because the queue's
total order (ascending cost, ties broken by the vertex-index pair)
determines every pop uniquely. -/
theorem C7_deterministic (score : CMesh → ℕ → ℕ → ℚ × Vec3)
    (valid : CMesh → Candidate → Bool) (me : ℚ) (t : ℕ) :
    ∀ (fuel : ℕ) (m : CMesh) (q1 q2 : List Candidate), List.Perm q1 q2 →
      driverLoop score valid me t fuel m q1 = driverLoop score valid me t fuel m q2 := by
  intro fuel
  induction fuel with
  | zero => intro m q1 q2 _; rfl
  | succ n ih =>
    intro m q1 q2 hp
    simp only [driverLoop]
    by_cases hstop : liveTriCount m ≤ max 4 t
    · rw [if_pos hstop, if_pos hstop]
    · rw [if_neg hstop, if_neg hstop]
      have hf : List.Perm (q1.filter (candLive m)) (q2.filter (candLive m)) :=
        hp.filter _
      rw [← popCheapest_perm hf]
      cases hpop : popCheapest (q1.filter (candLive m)) with
      | none => rfl
      | some c =>
        dsimp only
        by_cases hacc : valid m c = true ∧ c.cost ≤ me
            ∧ 4 ≤ liveTriCount m - degenCount m c.v1 c.v2
        · rw [if_pos hacc, if_pos hacc]
          exact ih _ _ _ ((hf.erase c).append_right _)
        · rw [if_neg hacc, if_neg hacc]
          exact ih _ _ _ (hf.erase c)

/-- C7 (witness): two runs whose seeded queues are permutations of each
other produce identical results on the strip. -/
theorem C7_deterministic_witness :
    List.Perm [candA, candB] [candB, candA] ∧
    driverLoop (constScore (3/10)) trueValid 1000 4 3 stripMesh [candA, candB]
      = driverLoop (constScore (3/10)) trueValid 1000 4 3 stripMesh [candB, candA] :=
  ⟨List.Perm.swap candB candA [],
   C7_deterministic (constScore (3/10)) trueValid 1000 4 3 stripMesh
     [candA, candB] [candB, candA] (List.Perm.swap candB candA [])⟩

/-- C8: re-running decimation on an already-decimated mesh with the same
target never increases the triangle count, because a decimation pass never
increases the live triangle count of its input. -/
theorem C8_redecimation_monotone (score : ℚ → CMesh → ℕ → ℕ → ℚ × Vec3)
    (valid : CMesh → Candidate → Bool) (fuel1 fuel2 : ℕ) (m : CMesh) (t : ℕ)
    (me bw : ℚ) (r1 r2 : DecResult)
    (h1 : decimate score valid fuel1 m t me bw = Except.ok r1)
    (h2 : decimate score valid fuel2 r1.mesh t me bw = Except.ok r2) :
    r2.final_triangle_count ≤ r1.final_triangle_count := by
  unfold decimate at h1 h2
  by_cases h0 : m.verts.length = 0 ∨ m.tris.length = 0
  · rw [if_pos h0] at h1
    simp at h1
  · rw [if_neg h0] at h1
    dsimp only at h1
    rw [Except.ok.injEq] at h1
    subst h1
    by_cases h0b : (compactMesh (driverLoop (score bw) valid me t fuel1 m
        (seedQueue (score bw) m)).1).verts.length = 0 ∨
        (compactMesh (driverLoop (score bw) valid me t fuel1 m
        (seedQueue (score bw) m)).1).tris.length = 0
    · rw [if_pos h0b] at h2
      simp at h2
    · rw [if_neg h0b] at h2
      dsimp only at h2
      rw [Except.ok.injEq] at h2
      subst h2
      show liveTriCount (compactMesh _) ≤ liveTriCount (compactMesh _)
      rw [compact_tris]
      exact le_trans (driver_mono _ _ _ _ _ _ _) (le_refl _)

/-- C8 (witness): decimating the strip's decimation output again does not
increase the triangle count. -/
theorem C8_redecimation_monotone_witness :
    c8run1 = Except.ok c8res1 ∧ c8run2 = Except.ok c8res2 ∧
    c8res2.final_triangle_count ≤ c8res1.final_triangle_count :=
  ⟨rfl, rfl,
   C8_redecimation_monotone constScore trueValid 40 40 stripMesh 4 1000 (3/10)
     c8res1 c8res2 rfl rfl⟩

/-- C9: every decimation call the handler issues carries the fixed knobs
`maximum_error = 0.01` and `boundary_weight = 0.3`; the endpoint's only
request parameters are the file and `target_reduction`, so no caller can
choose them. -/
theorem C9_fixed_knobs (env : Env) (f : UploadFile) (tr : ℚ) (c : DecCall)
    (hc : (decimate_mesh env f tr).decimateCall = some c) :
    c.maximumError = 1/100 ∧ c.boundaryWeight = 3/10 := by
  rcases handler_cases env f tr with ⟨-, heq⟩ | ⟨-, -, heq⟩ | ⟨-, -, -, heq⟩ | ⟨-, -, -, heq⟩
  · rw [heq] at hc; simp at hc
  · rw [heq] at hc; simp at hc
  · rw [heq] at hc; simp at hc
  · rw [heq] at hc
    rw [(tryBlock_proj env f tr (extOf f.filename)).1] at hc
    exact tryRun_knobs env f tr (extOf f.filename) c hc

/-- C9 (witness): the concrete successful run calls the core with the fixed
knobs. -/
theorem C9_fixed_knobs_witness :
    (decimate_mesh envOk fileStl (1/2)).decimateCall = some (callOf meshA (1/2)) ∧
    (callOf meshA (1/2)).maximumError = 1/100 ∧
    (callOf meshA (1/2)).boundaryWeight = 3/10 :=
  ⟨rfl,
   (C9_fixed_knobs envOk fileStl (1/2) (callOf meshA (1/2)) rfl).1,
   (C9_fixed_knobs envOk fileStl (1/2) (callOf meshA (1/2)) rfl).2⟩

/-- C10: every successful response is written in the input extension's
format (the write call receives the input extension), the `X-Format`
header is that extension uppercased, and the media type is `text/plain`
for OBJ and `application/octet-stream` for STL. -/
theorem C10_format_passthrough (env : Env) (f : UploadFile) (tr : ℚ)
    (content : List ℕ) (mt : String) (hs : RespHeaders)
    (hok : (decimate_mesh env f tr).response = HResp.ok content mt hs) :
    hs.xFormat = pyUpper (extOf f.filename) ∧
    (extOf f.filename = strObj → mt = mtObj) ∧
    (extOf f.filename = strStl → mt = mtStl) ∧
    (decimate_mesh env f tr).outputExt = some (extOf f.filename) := by
  rcases handler_cases env f tr with ⟨-, heq⟩ | ⟨-, -, heq⟩ | ⟨-, -, -, heq⟩ | ⟨-, -, -, heq⟩
  · rw [heq] at hok; simp at hok
  · rw [heq] at hok; simp at hok
  · rw [heq] at hok; simp at hok
  · rw [heq] at hok ⊢
    obtain ⟨hxf, hmt, hoe⟩ :=
      tryRun_ok_resp env f tr (extOf f.filename) content mt hs
        (tryBlock_ok env f tr (extOf f.filename) content mt hs hok)
    refine ⟨hxf, ?_, ?_, ?_⟩
    · intro hobj
      rw [hmt, if_pos hobj]
    · intro hstl
      rw [hmt, hstl, if_neg (by decide)]
    · rw [(tryBlock_proj env f tr (extOf f.filename)).2.2.1]
      exact hoe

/-- C10 (witness): an STL upload yields an STL-encoded body,
`X-Format = "STL"` and media type `application/octet-stream`. -/
theorem C10_format_passthrough_witness :
    (decimate_mesh envOk fileStl (1/2)).response
      = HResp.ok [1, 2, 3] (mediaTypeOf strStl) (headersOf fileStl strStl meshA meshB) ∧
    (headersOf fileStl strStl meshA meshB).xFormat = pyUpper (extOf fileStl.filename) ∧
    (extOf fileStl.filename = strStl → mediaTypeOf strStl = mtStl) ∧
    (decimate_mesh envOk fileStl (1/2)).outputExt = some (extOf fileStl.filename) :=
  ⟨by rfl,
   (C10_format_passthrough envOk fileStl (1/2) [1, 2, 3] (mediaTypeOf strStl)
     (headersOf fileStl strStl meshA meshB) (by rfl)).1,
   (C10_format_passthrough envOk fileStl (1/2) [1, 2, 3] (mediaTypeOf strStl)
     (headersOf fileStl strStl meshA meshB) (by rfl)).2.2.1,
   (C10_format_passthrough envOk fileStl (1/2) [1, 2, 3] (mediaTypeOf strStl)
     (headersOf fileStl strStl meshA meshB) (by rfl)).2.2.2⟩

end MeshService
